import Mathlib

/-!
Verification of the ADR-Reporter (MediScan) resolution core against its
specification.  The definitions below are a shallow embedding of
`src/app.js`: the payload parser, the local DRAP index, the lookup,
the merge of local and fallback data, the dose-safety check, the report
submission handler and the persisted report log.  External effects
(JSON decoding of the scanned payload, the two OpenFDA fetches, the DOM
query for the drug title, form field values) appear as explicit
parameters describing their observable outcome.
-/

namespace MediScan

/-- JS `s.toLowerCase()` (basic-latin case folding, as both sides use). -/
def jsToLower (s : String) : String :=
  String.mk (s.toList.map Char.toLower)

/-- JS `s.trim()`: strip leading and trailing whitespace. -/
def jsTrim (s : String) : String :=
  String.mk (((s.toList.dropWhile Char.isWhitespace).reverse.dropWhile Char.isWhitespace).reverse)

/-- JS `list.join(' ')`. -/
def joinSpace : List String → String
  | [] => ""
  | [s] => s
  | s :: rest => s ++ " " ++ joinSpace rest

/-- JS `hay.includes(sub)` on lists of characters: `needle` starts here. -/
def listStartsWith : List Char → List Char → Bool
  | _, [] => true
  | [], _ :: _ => false
  | c :: cs, d :: ds => c == d && listStartsWith cs ds

/-- JS `hay.includes(sub)` on lists of characters: `needle` occurs somewhere. -/
def listContains (hay needle : List Char) : Bool :=
  match hay with
  | [] => needle.isEmpty
  | _ :: rest => listStartsWith hay needle || listContains rest needle

/-- JS `hay.includes(sub)` (substring test). -/
def jsIncludes (hay sub : String) : Bool :=
  listContains hay.toList sub.toList

/-- JS `a || b` for strings: the empty string is the only falsy string. -/
def jsOr (a b : String) : String :=
  if a = "" then b else a

/-- JS `x || null` for an optional number: `0` is falsy and collapses to null. -/
def jsOrNum (o : Option ℚ) : Option ℚ :=
  match o with
  | some m => if m = 0 then none else some m
  | none => none

/-- Candidate extracted from a scanned/typed payload (`parsePayload` output). -/
structure Candidate where
  name : String
  batch : String
  expiry : String
  deriving DecidableEq, Repr

/-- A record of the local DRAP dataset (`drap_drugs.json` entry). -/
structure DrugRecord where
  name : String
  manufacturer : String
  batch : String
  expiry : String
  uses : List String
  adrs : List String
  dosage : String
  maxDoseMg : Option ℚ
  synonyms : List String
  deriving DecidableEq, Repr

/-- The merged display record built in `fetchAndRenderDrug`. -/
structure MergedRecord where
  name : String
  manufacturer : String
  batch : String
  expiry : String
  uses_local : List String
  adrs_local : List String
  uses_official : List String
  adrs_reported : List String
  dosage_official : String
  maxDoseMg : Option ℚ
  deriving DecidableEq, Repr

/-- The local index `drapIndex`: a JS object modelled as an association list
in property-insertion order (overwriting a key keeps its position). -/
abbrev Index := List (String × DrugRecord)

/-- One JS property write `idx[key] = rec`: update in place, else append. -/
def insertIdx (idx : Index) (key : String) (rec : DrugRecord) : Index :=
  if idx.any (fun p => p.1 == key) then
    idx.map (fun p => if p.1 == key then (key, rec) else p)
  else idx ++ [(key, rec)]

/-- `loadDrapLocal` index construction: key every record by its lowercased
name (when non-empty) and by each lowercased synonym. -/
def buildIndex (records : List DrugRecord) : Index :=
  records.foldl (fun idx d =>
    let idx1 := if d.name ≠ "" then insertIdx idx (jsToLower d.name) d else idx
    d.synonyms.foldl (fun acc s => insertIdx acc (jsToLower s) d) idx1) []

/-- `loadDrapLocal`: a failed dataset fetch leaves the index empty. -/
def loadDrapLocal (loaded : Option (List DrugRecord)) : Index :=
  match loaded with
  | some records => buildIndex records
  | none => []

/-- JS property read `drapIndex[key]` (exact key only). -/
def exactLookup (idx : Index) (key : String) : Option DrugRecord :=
  (idx.find? (fun p => p.1 == key)).map (fun p => p.2)

/-- The substring phase of the lookup loop in `fetchAndRenderDrug`:
`k.includes(lc) || record.synonyms.join(' ').toLowerCase().includes(lc)`. -/
def substrMatch (lc : String) (p : String × DrugRecord) : Bool :=
  jsIncludes p.1 lc || jsIncludes (jsToLower (joinSpace p.2.synonyms)) lc

/-- The two-phase local lookup of `fetchAndRenderDrug` (lines 219-226):
exact key first, then the first key in index order that contains the
lowercased input, or whose joined synonyms contain the input. -/
def lookupIdx (idx : Index) (name : String) : Option DrugRecord :=
  match exactLookup idx (jsToLower name) with
  | some r => some r
  | none => (idx.find? (substrMatch (jsToLower name))).map (fun p => p.2)

/-- Decoded JSON payload object as far as `parsePayload` inspects it;
fields the object lacks are `none`. -/
structure JsObj where
  drugName : Option String
  name : Option String
  productName : Option String
  batch : Option String
  lot : Option String
  expiry : Option String
  deriving DecidableEq, Repr

/-- `(o.drugName || o.name || o.productName || '').toString()`. -/
def structName (o : JsObj) : String :=
  jsOr (o.drugName.getD "") (jsOr (o.name.getD "") (o.productName.getD ""))

/-- `o.batch || o.lot || ''`. -/
def objBatch (o : JsObj) : String :=
  jsOr (o.batch.getD "") (jsOr (o.lot.getD "") "")

/-- `o.expiry || ''`. -/
def objExpiry (o : JsObj) : String :=
  jsOr (o.expiry.getD "") ""

/-- Character class `[A-Z0-9\-]` of the GS1 batch pattern. -/
def isBatchChar (c : Char) : Bool :=
  ('A' ≤ c && c ≤ 'Z') || c.isDigit || c == '-'

/-- Lazy capture of `([A-Z0-9\-]+?)(?=\(|$)` after a `(10)` marker:
consume class characters until the next character is `(` or the end;
fail on any other character or an empty capture. -/
def m10go (acc : List Char) : List Char → Option (List Char)
  | [] => some acc.reverse
  | c :: rest =>
    if c == '(' then some acc.reverse
    else if isBatchChar c then m10go (c :: acc) rest
    else none

/-- First capture attempt directly after a `(10)` marker (needs one class
character at least). -/
def m10capture : List Char → Option (List Char)
  | [] => none
  | c :: rest => if isBatchChar c then m10go [c] rest else none

/-- `raw.match(/\(10\)([A-Z0-9\-]+?)(?=\(|$)/)`: scan left to right for a
`(10)` marker whose following text admits a capture. -/
def findM10 : List Char → Option (List Char)
  | [] => none
  | c :: rest =>
    match c :: rest with
    | '(' :: '1' :: '0' :: ')' :: tail =>
      match m10capture tail with
      | some cap => some cap
      | none => findM10 rest
    | _ => findM10 rest

/-- `raw.match(/\(17\)(\d{6})/)`: scan for a `(17)` marker followed by six
digits. -/
def findM17 : List Char → Option (List Char)
  | [] => none
  | c :: rest =>
    match c :: rest with
    | '(' :: '1' :: '7' :: ')' :: d1 :: d2 :: d3 :: d4 :: d5 :: d6 :: _ =>
      if d1.isDigit && d2.isDigit && d3.isDigit && d4.isDigit && d5.isDigit && d6.isDigit then
        some [d1, d2, d3, d4, d5, d6]
      else findM17 rest
    | _ => findM17 rest

/-- GS1 batch extraction of `parsePayload`. -/
def gs1Batch (raw : String) : Option String :=
  (findM10 raw.toList).map List.asString

/-- GS1 expiry extraction of `parsePayload`. -/
def gs1Expiry (raw : String) : Option String :=
  (findM17 raw.toList).map List.asString

/-- `parsePayload(raw)`.  `decoded` is the outcome of `JSON.parse(raw)`
seen through the keys the function reads: `none` when parsing threw (or
the parsed value had no usable properties).  A non-empty structured name
returns at once; otherwise batch and expiry keep any object values,
overwritten by the GS1 pattern captures when those match, and the name is
the whole raw string. -/
def parsePayload (decoded : Option JsObj) (raw : String) : Candidate :=
  match decoded with
  | some o =>
    if structName o ≠ "" then
      { name := structName o, batch := objBatch o, expiry := objExpiry o }
    else
      { name := raw
        batch := (gs1Batch raw).getD (objBatch o)
        expiry := (gs1Expiry raw).getD (objExpiry o) }
  | none =>
    { name := raw
      batch := (gs1Batch raw).getD ""
      expiry := (gs1Expiry raw).getD "" }

/-- Observable outcome of the two OpenFDA fallback queries; a failed or
skipped query contributes empty data. -/
structure Fallback where
  usesFDA : List String
  adrsFDA : List String
  doseFDA : String
  deriving DecidableEq, Repr

/-- Fallback outcome when both queries failed or were never issued. -/
def emptyFallback : Fallback := { usesFDA := [], adrsFDA := [], doseFDA := "" }

/-- `local?.f || ""` access on an optional record. -/
def optField (o : Option DrugRecord) (f : DrugRecord → String) : String :=
  match o with
  | some l => f l
  | none => ""

/-- `local?.f || []` access on an optional record. -/
def optList (o : Option DrugRecord) (f : DrugRecord → List String) : List String :=
  match o with
  | some l => f l
  | none => []

/-- The merged-record construction of `fetchAndRenderDrug` (lines 255-266),
factored as the spec's `merge(candidate, localMatch?, fallback?)`. -/
def merge (parsed : Candidate) (localRec : Option DrugRecord) (fb : Fallback) : MergedRecord :=
  { name := jsOr (optField localRec (fun l => l.name)) parsed.name
    manufacturer := jsOr (optField localRec (fun l => l.manufacturer)) "Unknown"
    batch := jsOr parsed.batch (jsOr (optField localRec (fun l => l.batch)) "")
    expiry := jsOr parsed.expiry (jsOr (optField localRec (fun l => l.expiry)) "")
    uses_local := optList localRec (fun l => l.uses)
    adrs_local := optList localRec (fun l => l.adrs)
    uses_official := fb.usesFDA
    adrs_reported := fb.adrsFDA
    dosage_official := jsOr (optField localRec (fun l => l.dosage)) (jsOr fb.doseFDA "")
    maxDoseMg := jsOrNum (localRec.bind (fun l => l.maxDoseMg)) }

/-- `fetchAndRenderDrug`: trim the candidate name, bail out on an empty
name, look the name up locally, use the fallback outcome only on a local
miss, and merge.  `fb` is the observable outcome the two fetches would
deliver if issued. -/
def fetchAndRenderDrug (idx : Index) (fb : Fallback) (parsed : Candidate) :
    Option MergedRecord :=
  let name := jsTrim parsed.name
  if name = "" then none
  else
    let localRec := lookupIdx idx name
    let fbUsed := match localRec with
      | some _ => emptyFallback
      | none => fb
    some (merge { parsed with name := name } localRec fbUsed)

/-- A submitted ADR report as built by the form submit handler. -/
structure Report where
  id : String
  drug : String
  batch : String
  patientName : String
  age : String
  gender : String
  phone : String
  condition : String
  severity : String
  amountMg : ℚ
  description : String
  date : String
  highDose : Bool
  deriving DecidableEq, Repr

/-- JSON values, for the `localStorage` report log. -/
inductive Json where
  | null : Json
  | bool (b : Bool) : Json
  | num (q : ℚ) : Json
  | str (s : String) : Json
  | arr (elems : List Json) : Json
  | obj (fields : List (String × Json)) : Json

/-- Property read on a JSON object. -/
def jget (fields : List (String × Json)) (key : String) : Option Json :=
  (fields.find? (fun p => p.1 == key)).map (fun p => p.2)

/-- String projection of a JSON value. -/
def Json.getStr : Json → Option String
  | .str s => some s
  | _ => none

/-- Number projection of a JSON value. -/
def Json.getNum : Json → Option ℚ
  | .num q => some q
  | _ => none

/-- Boolean projection of a JSON value. -/
def Json.getBool : Json → Option Bool
  | .bool b => some b
  | _ => none

/-- `JSON.stringify` of a report, at the level of JSON values, with the
fields in the construction order of the submit handler. -/
def encodeReport (r : Report) : Json :=
  .obj [("id", .str r.id), ("drug", .str r.drug), ("batch", .str r.batch),
        ("patientName", .str r.patientName), ("age", .str r.age),
        ("gender", .str r.gender), ("phone", .str r.phone),
        ("condition", .str r.condition), ("severity", .str r.severity),
        ("amountMg", .num r.amountMg), ("description", .str r.description),
        ("date", .str r.date), ("highDose", .bool r.highDose)]

/-- Field-by-field read-back of a stored report. -/
def decodeReport : Json → Option Report
  | .obj fields => do
    let id ← (jget fields "id").bind Json.getStr
    let drug ← (jget fields "drug").bind Json.getStr
    let batch ← (jget fields "batch").bind Json.getStr
    let patientName ← (jget fields "patientName").bind Json.getStr
    let age ← (jget fields "age").bind Json.getStr
    let gender ← (jget fields "gender").bind Json.getStr
    let phone ← (jget fields "phone").bind Json.getStr
    let condition ← (jget fields "condition").bind Json.getStr
    let severity ← (jget fields "severity").bind Json.getStr
    let amountMg ← (jget fields "amountMg").bind Json.getNum
    let description ← (jget fields "description").bind Json.getStr
    let date ← (jget fields "date").bind Json.getStr
    let highDose ← (jget fields "highDose").bind Json.getBool
    pure { id := id, drug := drug, batch := batch, patientName := patientName,
           age := age, gender := gender, phone := phone, condition := condition,
           severity := severity, amountMg := amountMg, description := description,
           date := date, highDose := highDose }
  | _ => none

/-- The `localStorage` slot under `STORAGE_KEY`: `none` when unset, else the
stored (stringified) array of report JSON values. -/
abbrev Store := Option (List Json)

/-- `JSON.parse(localStorage.getItem(STORAGE_KEY) || '[]')`. -/
def readAllReports (store : Store) : List Json :=
  store.getD []

/-- `arr.push(report); localStorage.setItem(STORAGE_KEY, JSON.stringify(arr))`. -/
def appendReport (store : Store) (r : Report) : Store :=
  some (readAllReports store ++ [encodeReport r])

/-- The dose-safety check inlined in the submit handler (lines 328-331):
exact-key lookup of the lowercased drug name; the flag is raised only when
the record and its `maxDoseMg` are truthy, the amount is truthy, and the
amount exceeds the maximum. -/
def evaluateDose (idx : Index) (drug : String) (amountMg : ℚ) : Bool :=
  match exactLookup idx (jsToLower drug) with
  | some localRec =>
    match localRec.maxDoseMg with
    | some m => if m ≠ 0 ∧ amountMg ≠ 0 then decide (amountMg > m) else false
    | none => false
  | none => false

/-- The report fields read from the form before validation (`highDose` is
still to be computed). -/
structure ReportDraft where
  id : String
  drug : String
  batch : String
  patientName : String
  age : String
  gender : String
  phone : String
  condition : String
  severity : String
  amountMg : ℚ
  description : String
  date : String
  deriving DecidableEq, Repr

/-- Required-field validation of the submit handler (line 323). -/
def validDraft (d : ReportDraft) : Bool :=
  !(d.patientName == "" || d.age == "" || d.gender == "" || d.condition == ""
    || d.severity == "" || d.description == "")

/-- The submit handler: build the report with `highDose := false`, reject
invalid drafts before touching the store, else run the dose check and
append. -/
def reportFormSubmit (idx : Index) (store : Store) (d : ReportDraft) : Store :=
  let report : Report :=
    { id := d.id, drug := d.drug, batch := d.batch, patientName := d.patientName,
      age := d.age, gender := d.gender, phone := d.phone, condition := d.condition,
      severity := d.severity, amountMg := d.amountMg, description := d.description,
      date := d.date, highDose := false }
  if !(validDraft d) then store
  else
    let report := { report with highDose := evaluateDose idx report.drug report.amountMg }
    appendReport store report

/-- Class attribute values of the elements `renderDrug` writes into the
drug card, in template order (lines 279-292): the conditional sections are
the only classed elements. -/
def renderDrugClassNames (d : MergedRecord) : List String :=
  (if d.dosage_official ≠ "" then ["section"] else [])
  ++ ["section"]
  ++ (if d.uses_official ≠ [] then ["section"] else [])
  ++ (if d.adrs_local ≠ [] then ["section"] else [])
  ++ (if d.adrs_reported ≠ [] then ["section"] else [])

/-- The drug field of a submitted report (line 309):
`drugCard.querySelector('.drug-title')?.textContent || lastParsed.name || 'Unknown'`,
with the rendered card given by its class list and the text a matching
element would carry. -/
def submitDrugName (renderedClasses : List String) (titleText : String)
    (lastParsed : Candidate) : String :=
  if renderedClasses.contains "drug-title" then jsOr titleText (jsOr lastParsed.name "Unknown")
  else jsOr lastParsed.name "Unknown"

/-- Required-field validation stated on a finished report (same fields the
handler checks). -/
def validReport (r : Report) : Bool :=
  !(r.patientName == "" || r.age == "" || r.gender == "" || r.condition == ""
    || r.severity == "" || r.description == "")

/-- `structName` lifted to the optional decode outcome. -/
def structNameOpt : Option JsObj → String
  | some o => structName o
  | none => ""

/-- `objBatch` lifted to the optional decode outcome. -/
def objBatchOpt : Option JsObj → String
  | some o => objBatch o
  | none => ""

/-- `objExpiry` lifted to the optional decode outcome. -/
def objExpiryOpt : Option JsObj → String
  | some o => objExpiry o
  | none => ""

/-- First non-empty string of a precedence chain, used to phrase the
spec-side merge contract. -/
def firstNonempty (l : List String) : String :=
  (l.find? (fun s => s != "")).getD ""

/-- Modelled from the amended merge contract: each output field is the
first non-empty value of its precedence chain; `maxDoseMg` is taken from
the local match only when configured and non-zero. -/
def mergeSpecAmended (c : Candidate) (localRec : Option DrugRecord) (fb : Fallback) :
    MergedRecord :=
  { name := firstNonempty [optField localRec (fun l => l.name), c.name]
    manufacturer := firstNonempty [optField localRec (fun l => l.manufacturer), "Unknown"]
    batch := firstNonempty [c.batch, optField localRec (fun l => l.batch)]
    expiry := firstNonempty [c.expiry, optField localRec (fun l => l.expiry)]
    uses_local := optList localRec (fun l => l.uses)
    adrs_local := optList localRec (fun l => l.adrs)
    uses_official := fb.usesFDA
    adrs_reported := fb.adrsFDA
    dosage_official := firstNonempty [optField localRec (fun l => l.dosage), fb.doseFDA]
    maxDoseMg :=
      match localRec.bind (fun l => l.maxDoseMg) with
      | some m => if m = 0 then none else some m
      | none => none }

/-! Concrete data for the scenario claims. -/

/-- The dataset record of the Panadol scenario. -/
def panadolRec : DrugRecord :=
  { name := "Panadol", manufacturer := "", batch := "", expiry := "",
    uses := [], adrs := [], dosage := "", maxDoseMg := some 4000,
    synonyms := ["paracetamol"] }

/-- Index built from the one-record Panadol dataset. -/
def panadolIdx : Index := buildIndex [panadolRec]

/-- A dataset record carrying a (pathological) negative configured maximum. -/
def weirdRec : DrugRecord :=
  { name := "Weird", manufacturer := "", batch := "", expiry := "",
    uses := [], adrs := [], dosage := "", maxDoseMg := some (-10),
    synonyms := [] }

/-- Index built from the one-record negative-maximum dataset. -/
def weirdIdx : Index := buildIndex [weirdRec]

/-- A dataset record whose configured maximum dose is zero. -/
def zeroRec : DrugRecord :=
  { name := "Zed", manufacturer := "Z Labs", batch := "", expiry := "",
    uses := [], adrs := [], dosage := "", maxDoseMg := some 0,
    synonyms := [] }

/-- Candidate naming the zero-maximum record. -/
def candZed : Candidate := { name := "zed", batch := "", expiry := "" }

/-- Decoded payload object that has a batch field but no name field. -/
def batchOnlyObj : JsObj :=
  { drugName := none, name := none, productName := none,
    batch := some "B1", lot := none, expiry := none }

/-- The raw JSON text whose decode is `batchOnlyObj`. -/
def rawBatchJson : String := "\x7b\"batch\":\"B1\"\x7d"

/-- Decoded payload object with a structured drug name. -/
def nameObj : JsObj :=
  { drugName := some "Panadol", name := none, productName := none,
    batch := none, lot := none, expiry := none }

/-- A fallback outcome with data in every field. -/
def richFallback : Fallback :=
  { usesFDA := ["headache relief"], adrsFDA := ["nausea"], doseFDA := "500 mg every 6 hours" }

/-- A fully filled, valid report. -/
def sampleReport : Report :=
  { id := "r_1700000000000", drug := "Panadol", batch := "B1",
    patientName := "Ali", age := "30", gender := "male", phone := "",
    condition := "fever", severity := "mild", amountMg := 500,
    description := "rash after dose", date := "2024-01-01T00:00:00.000Z",
    highDose := false }

/-- A form draft with the required patient name missing. -/
def emptyNameDraft : ReportDraft :=
  { id := "r_2", drug := "Panadol", batch := "", patientName := "",
    age := "30", gender := "female", phone := "", condition := "fever",
    severity := "mild", amountMg := 100, description := "dizzy",
    date := "2024-01-02T00:00:00.000Z" }

/-- First-match characterization of `List.find?` composed with a
projection: the result is the image of the first element satisfying the
predicate, every earlier element failing it. -/
theorem find_map_eq_some_iff {α β : Type} (p : α → Bool) (f : α → β) :
    ∀ (l : List α) (b : β),
      ((l.find? p).map f = some b) ↔
        ∃ pre q post, l = pre ++ q :: post ∧ p q = true ∧ f q = b ∧
          ∀ x ∈ pre, p x = false := by
  intro l
  induction l with
  | nil =>
    intro b
    constructor
    · intro h
      simp [List.find?] at h
    · rintro ⟨pre, q, post, hl, _, _, _⟩
      exact absurd hl (by simp)
  | cons a t ih =>
    intro b
    by_cases hp : p a = true
    · rw [List.find?_cons_of_pos _ hp]
      constructor
      · intro h
        refine ⟨[], a, t, rfl, hp, ?_, by simp⟩
        simpa using h
      · rintro ⟨pre, q, post, hl, hq, hfq, hpre⟩
        cases pre with
        | nil =>
          simp only [List.nil_append, List.cons.injEq] at hl
          obtain ⟨h1, _⟩ := hl
          subst h1
          simpa using hfq
        | cons x pre2 =>
          simp only [List.cons_append, List.cons.injEq] at hl
          obtain ⟨hx, _⟩ := hl
          subst hx
          have hfalse := hpre a (by simp)
          rw [hfalse] at hp
          cases hp
    · rw [List.find?_cons_of_neg _ (by simpa using hp)]
      rw [ih b]
      constructor
      · rintro ⟨pre, q, post, hl, hq, hfq, hpre⟩
        refine ⟨a :: pre, q, post, by simp [hl], hq, hfq, ?_⟩
        intro x hx
        rcases List.mem_cons.mp hx with h1 | h2
        · subst h1
          simpa using hp
        · exact hpre x h2
      · rintro ⟨pre, q, post, hl, hq, hfq, hpre⟩
        cases pre with
        | nil =>
          simp only [List.nil_append, List.cons.injEq] at hl
          obtain ⟨h1, _⟩ := hl
          subst h1
          exact absurd hq hp
        | cons x pre2 =>
          simp only [List.cons_append, List.cons.injEq] at hl
          obtain ⟨_, hl2⟩ := hl
          exact ⟨pre2, q, post, hl2, hq, hfq, fun y hy => hpre y (by simp [hy])⟩

/-- C1 (counterexample): against the dataset containing only the Panadol
record with synonym "paracetamol", the lookup finds no record at all for
"paracetamol 500mg tab" — the code tests whether the input is a substring
of the key, not the key of the input — so resolve yields the raw name and
no `maxDoseMg`, not the claimed Panadol record. -/
theorem c1_counterexample :
    lookupIdx panadolIdx "paracetamol 500mg tab" = none ∧
    fetchAndRenderDrug panadolIdx emptyFallback
        { name := "paracetamol 500mg tab", batch := "", expiry := "" } =
      some { name := "paracetamol 500mg tab", manufacturer := "Unknown", batch := "",
             expiry := "", uses_local := [], adrs_local := [], uses_official := [],
             adrs_reported := [], dosage_official := "", maxDoseMg := none } ∧
    ("paracetamol 500mg tab" : String) ≠ "Panadol" ∧
    (none : Option ℚ) ≠ some 4000 := by
  decide

/-- C1 (amended): when the exact phase misses, the lookup returns the
first record in index iteration order whose key contains the lowercased
input as a substring, or whose space-joined synonyms contain the input
case-insensitively; consequently `resolve("paracetamol 500mg tab")`
against the Panadol dataset finds no local match, while the exact input
"paracetamol" resolves to Panadol with `uses_official` empty and
`maxDoseMg = 4000`. -/
theorem c1_amended (idx : Index) (name : String)
    (h : exactLookup idx (jsToLower name) = none) :
    (∀ r : DrugRecord,
       lookupIdx idx name = some r ↔
         ∃ pre q post, idx = pre ++ q :: post ∧
           substrMatch (jsToLower name) q = true ∧ q.2 = r ∧
           ∀ x ∈ pre, substrMatch (jsToLower name) x = false) ∧
    lookupIdx panadolIdx "paracetamol 500mg tab" = none ∧
    fetchAndRenderDrug panadolIdx emptyFallback
        { name := "paracetamol", batch := "", expiry := "" } =
      some { name := "Panadol", manufacturer := "Unknown", batch := "", expiry := "",
             uses_local := [], adrs_local := [], uses_official := [],
             adrs_reported := [], dosage_official := "", maxDoseMg := some 4000 } := by
  refine ⟨?_, by decide, by decide⟩
  intro r
  unfold lookupIdx
  rw [h]
  exact find_map_eq_some_iff (substrMatch (jsToLower name)) (fun p => p.2) idx r

/-- C1 (witness): the amended characterization applied to the Panadol
index and the fuzzy input "parac", which hits the synonym-derived key
"paracetamol" in the substring phase. -/
theorem c1_amended_witness :
    ∃ pre q post, panadolIdx = pre ++ q :: post ∧
      substrMatch (jsToLower "parac") q = true ∧ q.2 = panadolRec ∧
      ∀ x ∈ pre, substrMatch (jsToLower "parac") x = false :=
  ((c1_amended panadolIdx "parac" (by decide)).1 panadolRec).mp (by decide)

/-- C2 (counterexample): with a record whose configured `maxDoseMg` is
negative, a negative submitted amount is flagged as a high dose, although
the claim requires `highDose = false` whenever `amountMg ≤ 0`. -/
theorem c2_counterexample :
    evaluateDose weirdIdx "Weird" (-5) = true ∧ ((-5 : ℚ) ≤ 0) := by
  decide

/-- C2 (amended): the dose check uses a case-insensitive exact-key lookup
only, and flags exactly when that lookup succeeds, the record's
`maxDoseMg` is configured and non-zero, the amount is non-zero, and the
amount exceeds the maximum; in particular an amount of zero is never
flagged.  (Zero is JS-falsy: a configured maximum of 0 is treated as
unconfigured, and a negative amount can be flagged against a negative
maximum.) -/
theorem c2_amended (idx : Index) (drug : String) (amountMg : ℚ) :
    (evaluateDose idx drug amountMg = true ↔
      ∃ rec m, exactLookup idx (jsToLower drug) = some rec ∧
        rec.maxDoseMg = some m ∧ m ≠ 0 ∧ amountMg ≠ 0 ∧ m < amountMg) ∧
    evaluateDose idx drug 0 = false := by
  constructor
  · constructor
    · intro h
      unfold evaluateDose at h
      split at h
      next rec hx =>
        split at h
        next m hm =>
          split at h
          next hcond =>
            exact ⟨rec, m, hx, hm, hcond.1, hcond.2, by simpa using of_decide_eq_true h⟩
          next =>
            cases h
        next =>
          cases h
      next =>
        cases h
    · rintro ⟨rec, m, hx, hm, hm0, ha0, hlt⟩
      unfold evaluateDose
      simp only [hx, hm]
      rw [if_pos ⟨hm0, ha0⟩]
      exact decide_eq_true hlt
  · unfold evaluateDose
    split
    next rec hx =>
      split
      next m hm => simp
      next => rfl
    next => rfl

/-- C3 (counterexample): a local match whose configured `maxDoseMg` is 0
is merged to an absent `maxDoseMg` (JS `0 || null`), although the claim's
precedence `maxDoseMg = localMatch.maxDoseMg else absent` requires the
configured 0 to survive. -/
theorem c3_counterexample :
    (merge candZed (some zeroRec) emptyFallback).maxDoseMg = none ∧
    zeroRec.maxDoseMg = some 0 ∧ (some (0 : ℚ)) ≠ (none : Option ℚ) := by
  decide

/-- C3 (amended): merge is a pure deterministic function; every string
field is the first non-empty value of its stated precedence chain (name:
local then candidate; manufacturer: local then "Unknown"; batch and
expiry: candidate then local then empty; dosage_official: local then
fallback then empty), and `maxDoseMg` is the local value when configured
and non-zero, else absent; fallback values never override local values. -/
theorem c3_amended (c : Candidate) (localRec : Option DrugRecord) (fb : Fallback) :
    merge c localRec fb = mergeSpecAmended c localRec fb := by
  have hor : ∀ a b : String, jsOr a b = firstNonempty [a, b] := by
    intro a b
    by_cases ha : a = ""
    · by_cases hb : b = ""
      · subst ha; subst hb; rfl
      · have hbb : (b == "") = false := by simpa using hb
        subst ha
        simp [jsOr, firstNonempty, List.find?, hbb, bne]
    · have haa : (a == "") = false := by simpa using ha
      simp [jsOr, firstNonempty, List.find?, ha, haa, bne]
  have hor0 : ∀ a : String, jsOr a "" = a := by
    intro a
    by_cases ha : a = "" <;> simp [jsOr, ha]
  unfold merge mergeSpecAmended
  rw [hor0, hor0, hor0]
  rw [hor, hor, hor, hor, hor]
  rfl

/-- C4: no element rendered by `renderDrug` carries the class
`drug-title`, so the submit handler's `querySelector('.drug-title')`
always misses and the stored drug field is the last parsed raw name, or
the literal "Unknown" when that name is empty — never the matched local
record's canonical name. -/
theorem c4_raw_name_keyed (d : MergedRecord) (titleText : String) (lastParsed : Candidate) :
    ((renderDrugClassNames d).contains "drug-title") = false ∧
    submitDrugName (renderDrugClassNames d) titleText lastParsed =
      (if lastParsed.name = "" then "Unknown" else lastParsed.name) := by
  have h : ((renderDrugClassNames d).contains "drug-title") = false := by
    unfold renderDrugClassNames
    (repeat' split) <;> rfl
  refine ⟨h, ?_⟩
  unfold submitDrugName
  rw [h]
  simp [jsOr]

/-- C5: the fallback outcome cannot influence a resolution with a local
match — the merged record is the one obtained with the empty fallback —
and `uses_official` and `adrs_reported` are empty in that case. -/
theorem c5_local_match_blocks_fallback (idx : Index) (fb : Fallback) (c : Candidate)
    (h : (lookupIdx idx (jsTrim c.name)).isSome = true) :
    fetchAndRenderDrug idx fb c = fetchAndRenderDrug idx emptyFallback c ∧
    ∀ m : MergedRecord, fetchAndRenderDrug idx fb c = some m →
      m.uses_official = [] ∧ m.adrs_reported = [] := by
  obtain ⟨l, hl⟩ := Option.isSome_iff_exists.mp h
  by_cases hn : jsTrim c.name = ""
  · refine ⟨by simp [fetchAndRenderDrug, hn], ?_⟩
    intro m hm
    simp [fetchAndRenderDrug, hn] at hm
  · refine ⟨by simp [fetchAndRenderDrug, hn, hl], ?_⟩
    intro m hm
    simp only [fetchAndRenderDrug, hn, if_false, hl, Option.some.injEq] at hm
    subst hm
    exact ⟨rfl, rfl⟩

/-- C5 (witness): a resolution of "Panadol" against the Panadol index is
unaffected by a data-rich fallback outcome. -/
theorem c5_witness :
    fetchAndRenderDrug panadolIdx richFallback
        { name := "Panadol", batch := "", expiry := "" } =
      fetchAndRenderDrug panadolIdx emptyFallback
        { name := "Panadol", batch := "", expiry := "" } :=
  (c5_local_match_blocks_fallback panadolIdx richFallback
    { name := "Panadol", batch := "", expiry := "" } (by decide)).1

/-- C6: a decoded payload object with a non-empty name field (under
`drugName`, `name` or `productName`, in that precedence) makes `parse`
return that name with the object's batch and expiry immediately, entirely
ignoring the raw text and its GS1 segments. -/
theorem c6_structured_path_wins (o : JsObj) (raw raw2 : String)
    (h : structName o ≠ "") :
    parsePayload (some o) raw =
      { name := structName o, batch := objBatch o, expiry := objExpiry o } ∧
    parsePayload (some o) raw = parsePayload (some o) raw2 := by
    constructor <;> simp [parsePayload, h]

/-- C6 (witness): a structured payload whose raw text carries GS1 batch
and expiry segments still parses to the structured name with the object's
(empty) batch and expiry. -/
theorem c6_witness :
    parsePayload (some nameObj) "(10)ZZZ(17)991231" =
      { name := "Panadol", batch := "", expiry := "" } :=
  (c6_structured_path_wins nameObj "(10)ZZZ(17)991231" "" (by decide)).1.trans (by decide)

/-- C7 (counterexample): the payload "(JSON object with a batch field but
no name)" is non-structured in the claim's sense, no GS1 pattern matches
its text, yet the parsed batch is "B1" taken from the decoded object —
not left empty as the claim requires. -/
theorem c7_counterexample :
    parsePayload (some batchOnlyObj) rawBatchJson =
      { name := rawBatchJson, batch := "B1", expiry := "" } ∧
    gs1Batch rawBatchJson = none ∧ gs1Expiry rawBatchJson = none ∧
    ("B1" : String) ≠ "" := by
  decide

/-- C7 (amended): for every non-structured payload `parse(raw).name = raw`
holds; batch and expiry are the GS1 pattern captures when those match and
otherwise fall back to the decoded object's `batch||lot` and `expiry`
fields (empty when the payload did not decode at all); the empty input
yields the all-empty candidate. -/
theorem c7_amended (decoded : Option JsObj) (raw : String)
    (h : structNameOpt decoded = "") :
    (parsePayload decoded raw).name = raw ∧
    (parsePayload decoded raw).batch = (gs1Batch raw).getD (objBatchOpt decoded) ∧
    (parsePayload decoded raw).expiry = (gs1Expiry raw).getD (objExpiryOpt decoded) ∧
    parsePayload none "" = { name := "", batch := "", expiry := "" } := by
  cases decoded with
  | none => exact ⟨rfl, rfl, rfl, by decide⟩
  | some o =>
    have ho : structName o = "" := h
    refine ⟨?_, ?_, ?_, by decide⟩ <;> simp [parsePayload, ho, objBatchOpt, objExpiryOpt]

/-- C7 (witness): the amended statement applied to the batch-only decoded
object and its raw JSON text. -/
theorem c7_amended_witness :
    (parsePayload (some batchOnlyObj) rawBatchJson).name = rawBatchJson ∧
    (parsePayload (some batchOnlyObj) rawBatchJson).batch =
      (gs1Batch rawBatchJson).getD (objBatchOpt (some batchOnlyObj)) :=
  ⟨(c7_amended (some batchOnlyObj) rawBatchJson (by decide)).1,
   (c7_amended (some batchOnlyObj) rawBatchJson (by decide)).2.1⟩

/-- C8: appending a validated report to the store and reading the log back
returns the old log with the encoded report appended (append order), and
the stored value decodes back to the report with every field intact. -/
theorem c8_roundtrip (store : Store) (r : Report) (_h : validReport r = true) :
    readAllReports (appendReport store r) = readAllReports store ++ [encodeReport r] ∧
    decodeReport (encodeReport r) = some r :=
  ⟨rfl, rfl⟩

/-- C8 (witness): the round trip at a concrete valid report on an unset
store. -/
theorem c8_roundtrip_witness :
    readAllReports (appendReport none sampleReport) =
      readAllReports none ++ [encodeReport sampleReport] ∧
    decodeReport (encodeReport sampleReport) = some sampleReport :=
  c8_roundtrip none sampleReport (by decide)

/-- C9: no failure in the resolution core is fatal — a failed dataset load
yields the empty index, resolution always produces a merged record for a
non-empty name, and with the empty dataset `resolve("Amoxicillin")`
returns a record with the raw name, manufacturer "Unknown" and exactly
what the fallback delivered (all empty when it failed too). -/
theorem c9_no_failure_is_fatal (idx : Index) (fb : Fallback) (c : Candidate)
    (h : jsTrim c.name ≠ "") :
    loadDrapLocal none = [] ∧
    (fetchAndRenderDrug idx fb c).isSome = true ∧
    fetchAndRenderDrug [] fb { name := "Amoxicillin", batch := "", expiry := "" } =
      some { name := "Amoxicillin", manufacturer := "Unknown", batch := "", expiry := "",
             uses_local := [], adrs_local := [], uses_official := fb.usesFDA,
             adrs_reported := fb.adrsFDA, dosage_official := fb.doseFDA,
             maxDoseMg := none } := by
    refine ⟨rfl, by simp [fetchAndRenderDrug, h], ?_⟩
    have ht : jsTrim "Amoxicillin" = "Amoxicillin" := by decide
    have hl : lookupIdx [] "Amoxicillin" = none := by decide
    have hd : jsOr (fb.doseFDA) "" = fb.doseFDA := by
      by_cases hz : fb.doseFDA = "" <;> simp [jsOr, hz]
    simp [fetchAndRenderDrug, ht, hl, merge, optField, optList, jsOrNum, jsOr, hd]
    intro hz
    exact hz.symm

/-- C9 (witness): the empty-dataset resolution of "Amoxicillin" with both
fallback queries failed produces a merged record (never a thrown error). -/
theorem c9_witness :
    (fetchAndRenderDrug [] emptyFallback
      { name := "Amoxicillin", batch := "", expiry := "" }).isSome = true :=
  (c9_no_failure_is_fatal [] emptyFallback
    { name := "Amoxicillin", batch := "", expiry := "" } (by decide)).2.1

/-- C10: a submission missing any required patient field is rejected
before the store is touched: the persisted log is returned unchanged and
no partial report is appended. -/
theorem c10_validation_precedes_persistence (idx : Index) (store : Store) (d : ReportDraft)
    (h : d.patientName = "" ∨ d.age = "" ∨ d.gender = "" ∨ d.condition = "" ∨
         d.severity = "" ∨ d.description = "") :
    reportFormSubmit idx store d = store ∧
    readAllReports (reportFormSubmit idx store d) = readAllReports store := by
  have hv : validDraft d = false := by
    unfold validDraft
    rcases h with h | h | h | h | h | h <;> simp [h]
  have hs : reportFormSubmit idx store d = store := by
    simp [reportFormSubmit, hv]
  exact ⟨hs, by rw [hs]⟩

/-- C10 (witness): a draft with an empty patient name leaves an unset
store unset. -/
theorem c10_witness :
    reportFormSubmit [] none emptyNameDraft = none :=
  (c10_validation_precedes_persistence [] none emptyNameDraft (Or.inl rfl)).1

end MediScan
